import Mathlib

/-!
Verification of the Smart Campus Store Inventory and Expiry Tracker.

This file gives a shallow embedding of the core of the backend
(src/backend/main.py, src/backend/models.py, src/backend/ml_engine.py,
src/backend/schemas.py) and proves properties of the FIFO batch ledger,
the expiry classifiers, the replenishment trigger and the demand
forecaster heuristic fallback.

Modelling conventions:
- Python ints are modelled as Lean Int (ids as Nat, they are database
  primary keys and hence unique).
- Python floats (prices, velocities) are modelled as exact rationals.
- Dates and datetimes are modelled as integer day numbers; date
  subtraction gives the day difference, matching (d1 - d2).days.
- Python int(x) truncates toward zero: pyInt below.
- Python round(x) rounds half to even: bankersRound below.
- The persisted database state is a StoreState record.  A request
  handler either returns Except.ok with the state as committed, or
  Except.error: in the source an HTTPException raised before
  db.commit() leaves the session uncommitted, and get_db
  (src/backend/database.py) closes the session without committing, so
  the persisted state is unchanged on the error path.
-/

namespace CampusStore

/-- Python int(x): truncation toward zero. -/
def pyInt (q : ℚ) : ℤ := if q < 0 then ⌈q⌉ else ⌊q⌋

/-- Python round(x): round half to even. -/
def bankersRound (q : ℚ) : ℤ :=
  if q - ⌊q⌋ < 1/2 then ⌊q⌋
  else if 1/2 < q - ⌊q⌋ then ⌊q⌋ + 1
  else if ⌊q⌋ % 2 = 0 then ⌊q⌋ else ⌊q⌋ + 1

/-- Python round(x, 2): round to two decimal places. -/
def round2 (q : ℚ) : ℚ := (bankersRound (q * 100) : ℚ) / 100

/-- Row of the products table (src/backend/models.py, class Product).
Presentation-only columns (fat content, weight, barcode, image url,
timestamps) are omitted. -/
structure Product where
  id : Nat
  item_id : String
  name : String
  category : String
  mrp : ℚ
  min_stock : ℤ
  deriving Repr, DecidableEq

/-- Row of the batches table (src/backend/models.py, class Batch). -/
structure Batch where
  id : Nat
  product_id : Nat
  batch_number : String
  quantity : ℤ
  cost_price : ℚ
  expiry_date : ℤ
  deriving Repr, DecidableEq

/-- Row of the transactions table (src/backend/models.py, class
Transaction). -/
structure Transaction where
  product_id : Nat
  batch_id : Option Nat
  transaction_type : String
  quantity : ℤ
  unit_price : ℚ
  total_amount : ℚ
  transaction_date : ℤ
  notes : Option String
  deriving Repr, DecidableEq

/-- Row of the suppliers table (src/backend/models.py, class Supplier). -/
structure Supplier where
  id : Nat
  name : String
  category : String
  deriving Repr, DecidableEq

/-- Row of the purchase orders table (src/backend/models.py, class
PurchaseOrder). -/
structure PurchaseOrder where
  supplier_id : Nat
  product_id : Nat
  quantity : ℤ
  status : String
  predicted_stockout_date : ℤ
  deriving Repr, DecidableEq

/-- Request body of POST /api/transactions (src/backend/schemas.py,
class TransactionCreate).  unit_price defaults to 0.0 when the caller
omits it, so an omitted unit price is modelled as 0. -/
structure TransactionCreate where
  product_id : Nat
  batch_id : Option Nat
  transaction_type : String
  quantity : ℤ
  unit_price : ℚ
  notes : Option String
  deriving Repr, DecidableEq

/-- The persisted database state. -/
structure StoreState where
  products : List Product
  batches : List Batch
  transactions : List Transaction
  suppliers : List Supplier
  purchase_orders : List PurchaseOrder
  deriving Repr, DecidableEq

/-- Predicate selecting the batches of a product that still hold stock,
as in the query of the sale branch of create_transaction
(src/backend/main.py lines 426-429) and in Product.total_stock
(src/backend/models.py lines 71-73). -/
def posBatchPred (pid : Nat) (b : Batch) : Bool :=
  b.product_id == pid && decide (0 < b.quantity)

/-- Product.total_stock (src/backend/models.py lines 71-73): sum of the
quantities of the batches of the product with quantity > 0. -/
def total_stock (p : Product) (batches : List Batch) : ℤ :=
  ((batches.filter (posBatchPred p.id)).map Batch.quantity).sum

/-- Ordering of batches by expiry date, as in order_by(Batch.expiry_date). -/
def expLE (a b : Batch) : Prop := a.expiry_date ≤ b.expiry_date

instance : DecidableRel expLE := fun a b => inferInstanceAs (Decidable (a.expiry_date ≤ b.expiry_date))

instance : IsTotal Batch expLE := ⟨fun a b => Int.le_total a.expiry_date b.expiry_date⟩

instance : IsTrans Batch expLE := ⟨fun _ _ _ => Int.le_trans⟩

/-- The batch list the sale branch of create_transaction iterates over
(src/backend/main.py lines 426-429): batches of the product with
quantity > 0, ordered ascending by expiry date.  SQL ORDER BY with ties
left in table order is modelled by a stable sort. -/
def saleBatches (batches : List Batch) (pid : Nat) : List Batch :=
  List.insertionSort expLE (batches.filter (posBatchPred pid))

/-- Deductions made by the FIFO loop of create_transaction
(src/backend/main.py lines 431-436), aligned position by position with
the batch list: once remaining is exhausted the loop breaks, which
leaves every later deduction at 0. -/
def allocDeds : ℤ → List Batch → List ℤ
  | _, [] => []
  | remaining, b :: rest =>
    if remaining ≤ 0 then 0 :: allocDeds remaining rest
    else
      min b.quantity remaining ::
        allocDeds (remaining - min b.quantity remaining) rest

/-- Deduction applied to the batch with the given id: the loop mutates
the selected rows in place; rows are identified by primary key. -/
def dedOf (l : List Batch) (ds : List ℤ) (bid : Nat) : ℤ :=
  match (l.zip ds).find? (fun e => e.fst.id == bid) with
  | some e => e.snd
  | none => 0

/-- Effect of the FIFO loop on the batches table. -/
def applySaleDeds (batches l : List Batch) (ds : List ℤ) : List Batch :=
  batches.map (fun b => { b with quantity := b.quantity - dedOf l ds b.id })

/-- Update the first row matching the id, as Query.first() selects the
first matching row and the handler mutates only that object. -/
def updateFirstBatch (bid : Nat) (f : Batch → Batch) : List Batch → List Batch
  | [] => []
  | b :: rest => if b.id == bid then f b :: rest else b :: updateFirstBatch bid f rest

/-- Wastage branch of create_transaction (src/backend/main.py lines
441-445).  In Python, if data.batch_id is false both for None and for
0; if no batch row matches, nothing happens (no error is raised). -/
def applyWastage (batches : List Batch) (d : TransactionCreate) : List Batch :=
  match d.batch_id with
  | none => batches
  | some bid =>
    if bid = 0 then batches
    else updateFirstBatch bid
      (fun b => { b with quantity := max 0 (b.quantity - d.quantity) }) batches

/-- Creation of the Transaction audit row (src/backend/main.py lines
448-456).  Python data.unit_price or product.mrp evaluates to
product.mrp exactly when data.unit_price is falsy, i.e. equals 0. -/
def addTx (s : StoreState) (today : ℤ) (d : TransactionCreate) (product : Product) : StoreState :=
  let price : ℚ := if d.unit_price = 0 then product.mrp else d.unit_price
  { s with transactions := s.transactions ++
      [{ product_id := d.product_id
         batch_id := d.batch_id
         transaction_type := d.transaction_type
         quantity := d.quantity
         unit_price := price
         total_amount := round2 ((d.quantity : ℚ) * price)
         transaction_date := today
         notes := d.notes }] }

/-- Sum of sale quantities of the product over the last 30 days
(src/backend/main.py lines 465-470); the scalar() or 0 of an empty sum
is the sum of the empty list. -/
def recentSales (txs : List Transaction) (pid : Nat) (today : ℤ) : ℤ :=
  ((txs.filter (fun t =>
      t.product_id == pid && t.transaction_type == "sale" &&
      decide (today - 30 ≤ t.transaction_date))).map Transaction.quantity).sum

/-- Post-sale replenishment trigger (src/backend/main.py lines 461-507).
Runs on the committed state, which already contains the new sale
transaction and the deducted batches.  order_qty uses Python
int(avg_daily_sales * 7) and predicted_date uses
int(days_until_stockout), both modelled by pyInt. -/
def replenishmentTrigger (s : StoreState) (today : ℤ) (product : Product) : StoreState :=
  let avg : ℚ := (recentSales s.transactions product.id today : ℚ) / 30
  if 1/10 < avg then
    let days : ℚ := (total_stock product s.batches : ℚ) / avg
    if days ≤ 2 then
      if (s.purchase_orders.find? (fun po =>
            po.product_id == product.id &&
            (po.status == "draft" || po.status == "sent"))).isNone then
        match s.suppliers.find? (fun sup => sup.category == product.category) with
        | some sup =>
          { s with purchase_orders := s.purchase_orders ++
              [{ supplier_id := sup.id
                 product_id := product.id
                 quantity := max 20 (pyInt (avg * 7))
                 status := "draft"
                 predicted_stockout_date := today + pyInt days }] }
        | none => s
      else s
    else s
  else s

/-- The state committed by a successful sale before the replenishment
trigger runs: batches deducted FIFO and the sale transaction recorded. -/
def saleCommitState (s : StoreState) (today : ℤ) (d : TransactionCreate) (product : Product) : StoreState :=
  addTx { s with batches := (applySaleDeds s.batches (saleBatches s.batches d.product_id) (allocDeds d.quantity (saleBatches s.batches d.product_id))) }
    today d product

/-- POST /api/transactions (src/backend/main.py, create_transaction).
The sale branch checks remaining > 0 after the FIFO loop and raises
before committing, so on the error path nothing is persisted; on
success the deductions, the transaction row and any purchase order
drafted by the trigger are committed. -/
def create_transaction (s : StoreState) (today : ℤ) (d : TransactionCreate) :
    Except String StoreState :=
  match s.products.find? (fun p => p.id == d.product_id) with
  | none => .error "Product not found"
  | some product =>
    if d.transaction_type = "sale" then
      if 0 < d.quantity - (allocDeds d.quantity (saleBatches s.batches d.product_id)).sum then
        .error "Insufficient stock"
      else
        .ok (replenishmentTrigger (saleCommitState s today d product) today product)
    else if d.transaction_type = "wastage" then
      .ok (addTx { s with batches := applyWastage s.batches d } today d product)
    else
      .ok (addTx s today d product)

/-- Persisted state after a call to the endpoint: on an HTTPException
the session closes without commit (src/backend/database.py get_db), so
the stored state is unchanged. -/
def runTransaction (s : StoreState) (today : ℤ) (d : TransactionCreate) : StoreState :=
  match create_transaction s today d with
  | .ok s2 => s2
  | .error _ => s

/-- Batch.days_until_expiry (src/backend/models.py lines 108-111). -/
def Batch.days_until_expiry (b : Batch) (today : ℤ) : ℤ := b.expiry_date - today

/-- Batch.expiry_status (src/backend/models.py lines 94-106): note the
critical band here is days_left <= 7. -/
def Batch.expiry_status (b : Batch) (today : ℤ) : String :=
  if b.days_until_expiry today ≤ 0 then "expired"
  else if b.days_until_expiry today ≤ 7 then "critical"
  else if b.days_until_expiry today ≤ 15 then "warning"
  else "fresh"

/-- The classification block of the alert endpoints: this exact code
appears in get_expiring_batches (src/backend/main.py lines 281-289 and
354-362), daily_cron_check (lines 313-317) and get_dashboard (lines
569-577); the critical band there is days_left < 7. -/
def alertStatus (days_left : ℤ) : String :=
  if days_left ≤ 0 then "expired"
  else if days_left < 7 then "critical"
  else if days_left ≤ 15 then "warning"
  else "good"

/-- Qualification test of the pulse discount engine
(src/backend/main.py lines 200-210): quantity > 0 and
0 < days_left < 7. -/
def pulseNearExpiry (today : ℤ) (b : Batch) : Bool :=
  decide (0 < b.quantity) &&
    (decide (0 < b.expiry_date - today) && decide (b.expiry_date - today < 7))

/-- Prefix test on character lists, used to model the Python substring
operator. -/
def isPrefixChars : List Char → List Char → Bool
  | [], _ => true
  | _ :: _, [] => false
  | c :: cs, d :: ds => c == d && isPrefixChars cs ds

/-- Containment of pat in hay as a contiguous substring, the Python
expression pat in hay on strings. -/
def containsChars (pat : List Char) : List Char → Bool
  | [] => isPrefixChars pat []
  | c :: rest => isPrefixChars pat (c :: rest) || containsChars pat rest

/-- Python pat in s.lower(): category keyword matching of the heuristic
table, on lowercased characters. -/
def strContains (s : String) (pat : String) : Bool :=
  containsChars pat.data (s.data.map Char.toLower)

/-- SeasonalAnalyzer._get_heuristic_prediction (src/backend/ml_engine.py
lines 112-144): keyword-matched seasonal multiplier applied to a fixed
base demand of 50, rounded to 2 decimals. -/
def get_heuristic_prediction (category : String) (month : ℤ) : ℚ :=
  let multiplier : ℚ :=
    if strContains category "drink" || strContains category "beverage" ||
        strContains category "juice" || strContains category "cold" then
      if 4 ≤ month ∧ month ≤ 7 then 1.8
      else if month = 12 ∨ month = 1 ∨ month = 2 then 0.6
      else 1
    else if strContains category "cream" || strContains category "frozen" then
      if 4 ≤ month ∧ month ≤ 8 then 2 else 0.5
    else if strContains category "stationery" || strContains category "book" ||
        strContains category "pen" then
      if month = 3 ∨ month = 4 ∨ month = 11 ∨ month = 12 then 1.5
      else if month = 6 then 1.3
      else 1
    else if strContains category "snack" || strContains category "food" then
      if month = 10 ∨ month = 11 ∨ month = 12 then 1.2 else 1
    else 1
  round2 (50 * multiplier)

/-- A trained per-category model as stored by SeasonalAnalyzer: the
fitted degree-2 polynomial (training itself is out of scope; prediction
evaluates the stored coefficients) together with the row count used for
confidence scoring. -/
structure ModelInfo where
  c0 : ℚ
  c1 : ℚ
  c2 : ℚ
  data_points : Nat
  deriving Repr, DecidableEq

/-- Result record of predict_demand; the month_name presentation field
is omitted. -/
structure Prediction where
  category : String
  month : ℤ
  predicted_demand : ℚ
  confidence : ℚ
  deriving Repr, DecidableEq

/-- SeasonalAnalyzer.predict_demand (src/backend/ml_engine.py lines
146-175): heuristic fallback with fixed confidence 0.5 for a category
without a trained model; otherwise the polynomial evaluated at the
month, floored at 0, with confidence min(1, data_points / 50). -/
def predict_demand (models : List (String × ModelInfo)) (category : String) (month : ℤ) :
    Prediction :=
  match models.find? (fun e => e.fst == category) with
  | none =>
    { category := category
      month := month
      predicted_demand := get_heuristic_prediction category month
      confidence := 1/2 }
  | some e =>
    let mi := e.snd
    let prediction := max 0 (mi.c0 + mi.c1 * (month : ℚ) + mi.c2 * (month : ℚ) ^ 2)
    { category := category
      month := month
      predicted_demand := round2 prediction
      confidence := round2 (min 1 ((mi.data_points : ℚ) / 50)) }

/-! Helper lemmas about the FIFO allocation loop. -/

theorem allocDeds_length (r : ℤ) (l : List Batch) : (allocDeds r l).length = l.length := by
  induction l generalizing r with
  | nil => rfl
  | cons b rest ih =>
    by_cases hr : r ≤ 0 <;> simp [allocDeds, hr, ih]

theorem allocDeds_nonpos_getD {r : ℤ} (hr : r ≤ 0) (l : List Batch) (j : Nat) :
    (allocDeds r l).getD j 0 = 0 := by
  induction l generalizing j with
  | nil => simp [allocDeds]
  | cons b rest ih =>
    simp only [allocDeds, if_pos hr]
    cases j with
    | zero => rfl
    | succ jj => simpa using ih jj

theorem allocDeds_nonpos_sum {r : ℤ} (hr : r ≤ 0) (l : List Batch) :
    (allocDeds r l).sum = 0 := by
  induction l with
  | nil => rfl
  | cons b rest ih => simp [allocDeds, if_pos hr, ih]

theorem allocDeds_exhaust (r : ℤ) (l : List Batch) (i j : Nat) (hij : i < j)
    (hj : 0 < (allocDeds r l).getD j 0) :
    (allocDeds r l).getD i 0 = (l.map Batch.quantity).getD i 0 := by
  induction l generalizing r i j with
  | nil => simp [allocDeds] at hj
  | cons b rest ih =>
    by_cases hr : r ≤ 0
    · rw [allocDeds_nonpos_getD hr] at hj
      exact absurd hj (by omega)
    · simp only [allocDeds, if_neg hr] at hj ⊢
      obtain ⟨jj, rfl⟩ : ∃ jj, j = jj + 1 := ⟨j - 1, by omega⟩
      rw [List.getD_cons_succ] at hj
      cases i with
      | zero =>
        simp only [List.map_cons, List.getD_cons_zero]
        rcases le_total b.quantity r with hbr | hrb
        · rw [min_eq_left hbr]
        · exfalso
          rw [min_eq_right hrb, allocDeds_nonpos_getD (by omega : r - r ≤ 0)] at hj
          exact absurd hj (by omega)
      | succ ii =>
        rw [List.getD_cons_succ, List.map_cons, List.getD_cons_succ]
        exact ih _ ii jj (by omega) hj

theorem allocDeds_sum_le {r : ℤ} (hr : 0 ≤ r) {l : List Batch}
    (hq : ∀ b ∈ l, 0 ≤ b.quantity) : (allocDeds r l).sum ≤ r := by
  induction l generalizing r with
  | nil => simpa [allocDeds] using hr
  | cons b rest ih =>
    by_cases h0 : r ≤ 0
    · rw [allocDeds_nonpos_sum h0]; exact hr
    · have hb : 0 ≤ b.quantity := hq b (by simp)
      have hrec := ih (r := r - min b.quantity r) (by omega)
        (fun x hx => hq x (List.mem_cons_of_mem _ hx))
      simp only [allocDeds, if_neg h0, List.sum_cons]
      omega

theorem allocDeds_remaining_pos_iff {l : List Batch}
    (hq : ∀ b ∈ l, 0 ≤ b.quantity) (r : ℤ) :
    0 < r - (allocDeds r l).sum ↔ (l.map Batch.quantity).sum < r := by
  induction l generalizing r with
  | nil => simp [allocDeds]
  | cons b rest ih =>
    have hb : 0 ≤ b.quantity := hq b (by simp)
    have hrest : ∀ x ∈ rest, 0 ≤ x.quantity := fun x hx => hq x (List.mem_cons_of_mem _ hx)
    have hsum : 0 ≤ (rest.map Batch.quantity).sum := by
      apply List.sum_nonneg
      intro x hx
      obtain ⟨y, hy, rfl⟩ := List.mem_map.mp hx
      exact hrest y hy
    by_cases h0 : r ≤ 0
    · rw [allocDeds_nonpos_sum h0]
      simp only [List.map_cons, List.sum_cons]
      omega
    · have key := ih hrest (r - min b.quantity r)
      simp only [allocDeds, if_neg h0, List.sum_cons, List.map_cons]
      omega

/-! Helper lemmas about per-batch deductions. -/

theorem dedOf_head (b : Batch) (l : List Batch) (d : ℤ) (ds : List ℤ) :
    dedOf (b :: l) (d :: ds) b.id = d := by
  simp [dedOf]

theorem dedOf_cons_ne (b : Batch) (l : List Batch) (d : ℤ) (ds : List ℤ) (bid : Nat)
    (h : b.id ≠ bid) : dedOf (b :: l) (d :: ds) bid = dedOf l ds bid := by
  unfold dedOf
  rw [List.zip_cons_cons, List.find?_cons_of_neg]
  simpa using h

theorem dedOf_not_mem {l : List Batch} {bid : Nat} (h : ∀ c ∈ l, c.id ≠ bid) (ds : List ℤ) :
    dedOf l ds bid = 0 := by
  induction l generalizing ds with
  | nil => simp [dedOf]
  | cons c rest ih =>
    cases ds with
    | nil => simp [dedOf]
    | cons d ds2 =>
      rw [dedOf_cons_ne c rest d ds2 bid (h c (by simp))]
      exact ih (fun x hx => h x (List.mem_cons_of_mem _ hx)) ds2

theorem dedOf_bounds (l : List Batch) (r : ℤ) :
    (l.map Batch.id).Nodup → (∀ b ∈ l, 0 ≤ b.quantity) → ∀ b ∈ l,
    0 ≤ dedOf l (allocDeds r l) b.id ∧ dedOf l (allocDeds r l) b.id ≤ b.quantity := by
  induction l generalizing r with
  | nil => intro _ _ b hb; cases hb
  | cons c rest ih =>
    intro hnd hq b hb
    simp only [List.map_cons, List.nodup_cons] at hnd
    have hc : 0 ≤ c.quantity := hq c (by simp)
    have hq2 : ∀ x ∈ rest, 0 ≤ x.quantity := fun x hx => hq x (List.mem_cons_of_mem _ hx)
    have hne : ∀ x ∈ rest, c.id ≠ x.id :=
      fun x hx he => hnd.1 (he ▸ List.mem_map_of_mem Batch.id hx)
    by_cases hr : r ≤ 0
    · rw [show allocDeds r (c :: rest) = 0 :: allocDeds r rest from by
        simp [allocDeds, if_pos hr]]
      rcases List.mem_cons.mp hb with rfl | hbr
      · rw [dedOf_head]; exact ⟨le_refl 0, hc⟩
      · rw [dedOf_cons_ne c rest 0 (allocDeds r rest) b.id (hne b hbr)]
        exact ih r hnd.2 hq2 b hbr
    · rw [show allocDeds r (c :: rest) =
          min c.quantity r :: allocDeds (r - min c.quantity r) rest from by
        simp [allocDeds, if_neg hr]]
      rcases List.mem_cons.mp hb with rfl | hbr
      · rw [dedOf_head]
        exact ⟨le_min hc (by omega), min_le_left _ _⟩
      · rw [dedOf_cons_ne c rest _ _ b.id (hne b hbr)]
        exact ih (r - min c.quantity r) hnd.2 hq2 b hbr

theorem sum_map_dedOf (l : List Batch) (ds : List ℤ) :
    (l.map Batch.id).Nodup → ds.length = l.length →
    (l.map (fun b => dedOf l ds b.id)).sum = ds.sum := by
  induction l generalizing ds with
  | nil =>
    intro _ hlen
    cases ds with
    | nil => rfl
    | cons d ds2 => simp at hlen
  | cons c rest ih =>
    intro hnd hlen
    cases ds with
    | nil => simp at hlen
    | cons d ds2 =>
      simp only [List.map_cons, List.nodup_cons] at hnd
      have hmap : rest.map (fun b => dedOf (c :: rest) (d :: ds2) b.id) =
          rest.map (fun b => dedOf rest ds2 b.id) := by
        apply List.map_congr_left
        intro b hbr
        exact dedOf_cons_ne c rest d ds2 b.id
          (fun he => hnd.1 (he ▸ List.mem_map_of_mem Batch.id hbr))
      simp only [List.map_cons, List.sum_cons, dedOf_head]
      rw [hmap, ih ds2 hnd.2 (by simpa using hlen)]

/-! Generic list sum helpers. -/

theorem sum_map_filter_eq {α : Type} (p : α → Bool) (f : α → ℤ) (l : List α)
    (h : ∀ a ∈ l, p a = false → f a = 0) :
    ((l.filter p).map f).sum = (l.map f).sum := by
  induction l with
  | nil => rfl
  | cons a rest ih =>
    have hrest := fun x hx => h x (List.mem_cons_of_mem _ hx)
    by_cases hp : p a = true
    · simp [List.filter_cons, hp, ih hrest]
    · have hz : f a = 0 := h a (by simp) (by simpa using hp)
      simp [List.filter_cons, hp, ih hrest, hz]

theorem sum_map_sub {α : Type} (f g : α → ℤ) (l : List α) :
    (l.map (fun a => f a - g a)).sum = (l.map f).sum - (l.map g).sum := by
  induction l with
  | nil => rfl
  | cons a rest ih =>
    simp only [List.map_cons, List.sum_cons, ih]
    ring

/-! Helper lemmas about the selected batch list. -/

theorem saleBatches_perm (batches : List Batch) (pid : Nat) :
    List.Perm (saleBatches batches pid) (batches.filter (posBatchPred pid)) :=
  List.perm_insertionSort expLE _

theorem mem_saleBatches {batches : List Batch} {pid : Nat} {b : Batch} :
    b ∈ saleBatches batches pid ↔ b ∈ batches ∧ posBatchPred pid b = true := by
  rw [(saleBatches_perm batches pid).mem_iff, List.mem_filter]

theorem saleBatches_sorted (batches : List Batch) (pid : Nat) :
    List.Sorted expLE (saleBatches batches pid) :=
  List.sorted_insertionSort expLE _

theorem saleBatches_pos {batches : List Batch} {pid : Nat} {b : Batch}
    (h : b ∈ saleBatches batches pid) : 0 < b.quantity := by
  have h2 := (mem_saleBatches.mp h).2
  simp only [posBatchPred, Bool.and_eq_true, decide_eq_true_eq] at h2
  exact h2.2

theorem saleBatches_nonneg (batches : List Batch) (pid : Nat) :
    ∀ b ∈ saleBatches batches pid, 0 ≤ b.quantity :=
  fun _ hb => le_of_lt (saleBatches_pos hb)

theorem saleBatches_ids_nodup {batches : List Batch}
    (h : (batches.map Batch.id).Nodup) (pid : Nat) :
    ((saleBatches batches pid).map Batch.id).Nodup := by
  have hperm := (saleBatches_perm batches pid).map Batch.id
  rw [hperm.nodup_iff]
  exact h.sublist ((List.filter_sublist batches).map Batch.id)

theorem saleBatches_sum_eq_total (batches : List Batch) (p : Product) :
    ((saleBatches batches p.id).map Batch.quantity).sum = total_stock p batches := by
  exact ((saleBatches_perm batches p.id).map Batch.quantity).sum_eq

/-! State-shape lemmas. -/

theorem replenishmentTrigger_batches (s : StoreState) (today : ℤ) (product : Product) :
    (replenishmentTrigger s today product).batches = s.batches := by
  unfold replenishmentTrigger
  dsimp only
  repeat' split
  all_goals rfl

theorem replenishmentTrigger_transactions (s : StoreState) (today : ℤ) (product : Product) :
    (replenishmentTrigger s today product).transactions = s.transactions := by
  unfold replenishmentTrigger
  dsimp only
  repeat' split
  all_goals rfl

theorem addTx_batches (s : StoreState) (today : ℤ) (d : TransactionCreate) (p : Product) :
    (addTx s today d p).batches = s.batches := rfl

theorem addTx_purchase_orders (s : StoreState) (today : ℤ) (d : TransactionCreate) (p : Product) :
    (addTx s today d p).purchase_orders = s.purchase_orders := rfl

/-! Success-shape helpers for create_transaction. -/

theorem create_transaction_sale_ok (s : StoreState) (today : ℤ) (d : TransactionCreate)
    (product : Product)
    (hfind : s.products.find? (fun p => p.id == d.product_id) = some product)
    (hty : d.transaction_type = "sale")
    (hsum : ¬ 0 < d.quantity - (allocDeds d.quantity (saleBatches s.batches d.product_id)).sum) :
    create_transaction s today d =
      .ok (replenishmentTrigger (saleCommitState s today d product) today product) := by
  unfold create_transaction
  rw [hfind]
  simp only [if_pos hty, if_neg hsum]

theorem create_transaction_wastage_ok (s : StoreState) (today : ℤ) (d : TransactionCreate)
    (product : Product)
    (hfind : s.products.find? (fun p => p.id == d.product_id) = some product)
    (hty : d.transaction_type = "wastage") :
    create_transaction s today d =
      .ok (addTx { s with batches := applyWastage s.batches d } today d product) := by
  unfold create_transaction
  rw [hfind]
  dsimp only
  rw [if_neg (by rw [hty]; decide), if_pos hty]

theorem create_transaction_other_ok (s : StoreState) (today : ℤ) (d : TransactionCreate)
    (product : Product)
    (hfind : s.products.find? (fun p => p.id == d.product_id) = some product)
    (hty1 : d.transaction_type ≠ "sale") (hty2 : d.transaction_type ≠ "wastage") :
    create_transaction s today d = .ok (addTx s today d product) := by
  unfold create_transaction
  rw [hfind]
  dsimp only
  rw [if_neg hty1, if_neg hty2]

/-- C1: for every successful sale allocation, the batch list walked by
the loop consists exactly of the batches of the product with
quantity > 0 (batches whose expiry date is already past included),
ordered ascending by expiry date, and deduction is greedy in that
order: whenever any quantity is taken at a later position, every
earlier position was deducted by its full batch quantity, i.e. the
soonest-expiring batch is exhausted before the next batch is touched. -/
theorem c1_sale_fifo_order (s : StoreState) (today : ℤ) (d : TransactionCreate)
    (s2 : StoreState) (hty : d.transaction_type = "sale")
    (hok : create_transaction s today d = .ok s2) :
    List.Sorted expLE (saleBatches s.batches d.product_id) ∧
    (∀ b : Batch, b ∈ saleBatches s.batches d.product_id ↔
      b ∈ s.batches ∧ b.product_id = d.product_id ∧ 0 < b.quantity) ∧
    (∀ i j : Nat, i < j →
      0 < (allocDeds d.quantity (saleBatches s.batches d.product_id)).getD j 0 →
      (allocDeds d.quantity (saleBatches s.batches d.product_id)).getD i 0 =
        ((saleBatches s.batches d.product_id).map Batch.quantity).getD i 0) := by
  refine ⟨saleBatches_sorted _ _, ?_, ?_⟩
  · intro b
    rw [mem_saleBatches]
    simp [posBatchPred, and_assoc]
  · intro i j hij hj
    exact allocDeds_exhaust _ _ i j hij hj

/-- Fixture for C1: the end-to-end scenario of the specification, with
batch A (quantity 50, expiry in 60 days), B (20, 10 days) and C (10,
5 days past). -/
def c1P : Product :=
  { id := 1, item_id := "P1", name := "Prod", category := "Dairy", mrp := 10, min_stock := 10 }

def c1S : StoreState :=
  { products := [c1P]
    batches :=
      [ { id := 1, product_id := 1, batch_number := "BA", quantity := 50, cost_price := 5, expiry_date := 60 }
      , { id := 2, product_id := 1, batch_number := "BB", quantity := 20, cost_price := 5, expiry_date := 10 }
      , { id := 3, product_id := 1, batch_number := "BC", quantity := 10, cost_price := 5, expiry_date := -5 } ]
    transactions := []
    suppliers := []
    purchase_orders := [] }

def c1D : TransactionCreate :=
  { product_id := 1, batch_id := none, transaction_type := "sale", quantity := 15,
    unit_price := 10, notes := none }

/-- Witness for C1 at the concrete scenario: allocation of 15 takes the
full 10 from the soonest-expiring batch C (position 0 in expiry order)
while quantity is still taken at position 1. -/
theorem c1_sale_fifo_order_witness :
    List.Sorted expLE (saleBatches c1S.batches c1D.product_id) ∧
    (allocDeds c1D.quantity (saleBatches c1S.batches c1D.product_id)).getD 0 0 =
      ((saleBatches c1S.batches c1D.product_id).map Batch.quantity).getD 0 0 := by
  have h := c1_sale_fifo_order c1S 0 c1D
    (replenishmentTrigger (saleCommitState c1S 0 c1D c1P) 0 c1P) rfl
    (create_transaction_sale_ok c1S 0 c1D c1P rfl rfl (by decide))
  exact ⟨h.1, h.2.2 0 1 (by omega) (by decide)⟩

/-- C2: a sale allocation fails with Insufficient stock exactly when the
available quantity across the batches of the product (its total stock)
is less than the requested quantity, and in that case the operation is
all-or-nothing: the persisted state, in particular every batch
quantity, is unchanged. -/
theorem c2_insufficient_stock_atomic (s : StoreState) (today : ℤ) (d : TransactionCreate)
    (p : Product) (hty : d.transaction_type = "sale")
    (hfind : s.products.find? (fun q => q.id == d.product_id) = some p)
    (hpos : ∀ b ∈ s.batches, 0 ≤ b.quantity) :
    (create_transaction s today d = .error "Insufficient stock" ↔
      total_stock p s.batches < d.quantity) ∧
    (create_transaction s today d = .error "Insufficient stock" →
      runTransaction s today d = s ∧ (runTransaction s today d).batches = s.batches) := by
  have hpid : p.id = d.product_id := by simpa using List.find?_some hfind
  have hiff := allocDeds_remaining_pos_iff
    (saleBatches_nonneg s.batches d.product_id) d.quantity
  have hts := saleBatches_sum_eq_total s.batches p
  rw [hpid] at hts
  constructor
  · unfold create_transaction
    rw [hfind]
    dsimp only
    rw [if_pos hty]
    by_cases hc : 0 < d.quantity - (allocDeds d.quantity (saleBatches s.batches d.product_id)).sum
    · rw [if_pos hc]
      constructor
      · intro _
        rw [← hts]
        exact hiff.mp hc
      · intro _
        rfl
    · rw [if_neg hc]
      constructor
      · intro h
        exact absurd h (by simp)
      · intro hlt
        exact absurd (hiff.mpr (hts ▸ hlt)) hc
  · intro herr
    have hrun : runTransaction s today d = s := by
      unfold runTransaction
      rw [herr]
    exact ⟨hrun, by rw [hrun]⟩

/-- Fixture for C2: one batch with a single unit on stock, sale of 5. -/
def c2P : Product :=
  { id := 2, item_id := "P2", name := "Prod2", category := "Dairy", mrp := 10, min_stock := 10 }

def c2S : StoreState :=
  { products := [c2P]
    batches :=
      [ { id := 4, product_id := 2, batch_number := "B1", quantity := 1, cost_price := 5, expiry_date := 50 } ]
    transactions := []
    suppliers := []
    purchase_orders := [] }

def c2D : TransactionCreate :=
  { product_id := 2, batch_id := none, transaction_type := "sale", quantity := 5,
    unit_price := 10, notes := none }

/-- Witness for C2 at the concrete scenario. -/
theorem c2_insufficient_stock_atomic_witness :
    (create_transaction c2S 0 c2D = .error "Insufficient stock" ↔
      total_stock c2P c2S.batches < c2D.quantity) ∧
    (create_transaction c2S 0 c2D = .error "Insufficient stock" →
      runTransaction c2S 0 c2D = c2S ∧ (runTransaction c2S 0 c2D).batches = c2S.batches) :=
  c2_insufficient_stock_atomic c2S 0 c2D c2P rfl rfl (by decide)

/-! Total-stock accounting for the sale update. -/

theorem filter_posBatchPred_eq (B : List Batch) (pid : Nat) :
    B.filter (posBatchPred pid) =
      (B.filter (fun b => b.product_id == pid)).filter (fun b => decide (0 < b.quantity)) := by
  induction B with
  | nil => rfl
  | cons a rest ih =>
    by_cases h1 : (a.product_id == pid) = true
    · by_cases h2 : (0 : ℤ) < a.quantity
      · simp [List.filter_cons, posBatchPred, h1, h2, ih]
      · simp [List.filter_cons, posBatchPred, h1, h2, ih]
    · simp [List.filter_cons, posBatchPred, h1, ih]

theorem total_stock_eq_product_sum (p : Product) (B : List Batch)
    (hpos : ∀ b ∈ B, 0 ≤ b.quantity) :
    total_stock p B = ((B.filter (fun b => b.product_id == p.id)).map Batch.quantity).sum := by
  rw [total_stock, filter_posBatchPred_eq]
  apply sum_map_filter_eq
  intro a ha hfalse
  have haB : a ∈ B := (List.mem_filter.mp ha).1
  have h1 : ¬ (0 : ℤ) < a.quantity := by simpa using hfalse
  have h2 := hpos a haB
  omega

theorem filter_map_quantity_update (pid : Nat) (g : Batch → ℤ) (l : List Batch) :
    (l.map (fun b => { b with quantity := g b })).filter (fun b => b.product_id == pid) =
      (l.filter (fun b => b.product_id == pid)).map (fun b => { b with quantity := g b }) := by
  induction l with
  | nil => rfl
  | cons a rest ih =>
    by_cases hp : (a.product_id == pid) = true
    · simp [List.filter_cons, hp, ih]
    · simp [List.filter_cons, hp, ih]

theorem dedOf_zero_of_not_pos (B : List Batch) (pid : Nat) (ds : List ℤ)
    (hids : (B.map Batch.id).Nodup) {b : Batch} (hb : b ∈ B)
    (hnp : posBatchPred pid b = false) :
    dedOf (saleBatches B pid) ds b.id = 0 := by
  apply dedOf_not_mem
  intro c hc he
  have hcB := (mem_saleBatches.mp hc).1
  have hcp := (mem_saleBatches.mp hc).2
  have hcb : c = b := List.inj_on_of_nodup_map hids hcB hb he
  rw [hcb, hnp] at hcp
  exact Bool.noConfusion hcp

theorem applySaleDeds_nonneg (B : List Batch) (pid : Nat) (r : ℤ)
    (hids : (B.map Batch.id).Nodup) (hpos : ∀ b ∈ B, 0 ≤ b.quantity) :
    ∀ b ∈ applySaleDeds B (saleBatches B pid) (allocDeds r (saleBatches B pid)),
      0 ≤ b.quantity := by
  intro b hb
  rw [applySaleDeds] at hb
  obtain ⟨b0, hb0, rfl⟩ := List.mem_map.mp hb
  dsimp only
  by_cases hp : posBatchPred pid b0 = true
  · have hbl : b0 ∈ saleBatches B pid := mem_saleBatches.mpr ⟨hb0, hp⟩
    have hbd := dedOf_bounds (saleBatches B pid) r (saleBatches_ids_nodup hids pid)
      (saleBatches_nonneg B pid) b0 hbl
    have := hpos b0 hb0
    omega
  · rw [dedOf_zero_of_not_pos B pid _ hids hb0 (by simpa using hp)]
    have := hpos b0 hb0
    omega

theorem total_stock_applySaleDeds (B : List Batch) (p : Product) (r : ℤ)
    (hids : (B.map Batch.id).Nodup) (hpos : ∀ b ∈ B, 0 ≤ b.quantity) :
    total_stock p
        (applySaleDeds B (saleBatches B p.id) (allocDeds r (saleBatches B p.id))) =
      total_stock p B - (allocDeds r (saleBatches B p.id)).sum := by
  have hnn := applySaleDeds_nonneg B p.id r hids hpos
  rw [total_stock_eq_product_sum p _ hnn, total_stock_eq_product_sum p B hpos]
  rw [applySaleDeds, filter_map_quantity_update, List.map_map]
  have hcomp : (Batch.quantity ∘ fun b : Batch =>
      { b with quantity := b.quantity - dedOf (saleBatches B p.id) (allocDeds r (saleBatches B p.id)) b.id }) =
      fun b : Batch => b.quantity - dedOf (saleBatches B p.id) (allocDeds r (saleBatches B p.id)) b.id := rfl
  rw [hcomp, sum_map_sub]
  have hded : ((B.filter (fun b => b.product_id == p.id)).map
      (fun b => dedOf (saleBatches B p.id) (allocDeds r (saleBatches B p.id)) b.id)).sum =
      (allocDeds r (saleBatches B p.id)).sum := by
    have hz : ∀ a ∈ B.filter (fun b => b.product_id == p.id), (decide (0 < a.quantity)) = false →
        dedOf (saleBatches B p.id) (allocDeds r (saleBatches B p.id)) a.id = 0 := by
      intro a ha hfalse
      have haB : a ∈ B := (List.mem_filter.mp ha).1
      have hap : (a.product_id == p.id) = true := (List.mem_filter.mp ha).2
      apply dedOf_zero_of_not_pos B p.id _ hids haB
      simp [posBatchPred, hap, hfalse]
    calc ((B.filter (fun b => b.product_id == p.id)).map
            (fun b => dedOf (saleBatches B p.id) (allocDeds r (saleBatches B p.id)) b.id)).sum
        = (((B.filter (fun b => b.product_id == p.id)).filter (fun b => decide (0 < b.quantity))).map
            (fun b => dedOf (saleBatches B p.id) (allocDeds r (saleBatches B p.id)) b.id)).sum :=
          (sum_map_filter_eq _ _ _ hz).symm
      _ = ((B.filter (posBatchPred p.id)).map
            (fun b => dedOf (saleBatches B p.id) (allocDeds r (saleBatches B p.id)) b.id)).sum := by
          rw [← filter_posBatchPred_eq]
      _ = ((saleBatches B p.id).map
            (fun b => dedOf (saleBatches B p.id) (allocDeds r (saleBatches B p.id)) b.id)).sum :=
          (((saleBatches_perm B p.id).map _).sum_eq).symm
      _ = (allocDeds r (saleBatches B p.id)).sum :=
          sum_map_dedOf _ _ (saleBatches_ids_nodup hids p.id) (allocDeds_length r _)
  rw [hded]

/-- C3: for every sale allocation that succeeds with a nonnegative
requested quantity, the deducted amounts sum to exactly the requested
quantity, and the total stock of the product (sum over batches with
quantity > 0) decreases by exactly that amount. -/
theorem c3_sale_conservation (s : StoreState) (today : ℤ) (d : TransactionCreate)
    (s2 : StoreState) (p : Product)
    (hty : d.transaction_type = "sale")
    (hfind : s.products.find? (fun q => q.id == d.product_id) = some p)
    (hq0 : 0 ≤ d.quantity)
    (hids : (s.batches.map Batch.id).Nodup)
    (hpos : ∀ b ∈ s.batches, 0 ≤ b.quantity)
    (hok : create_transaction s today d = .ok s2) :
    (allocDeds d.quantity (saleBatches s.batches d.product_id)).sum = d.quantity ∧
    total_stock p s2.batches = total_stock p s.batches - d.quantity := by
  have hpid : p.id = d.product_id := by simpa using List.find?_some hfind
  unfold create_transaction at hok
  rw [hfind] at hok
  dsimp only at hok
  rw [if_pos hty] at hok
  by_cases hc : 0 < d.quantity - (allocDeds d.quantity (saleBatches s.batches d.product_id)).sum
  · rw [if_pos hc] at hok
    exact absurd hok (by simp)
  rw [if_neg hc] at hok
  have hs2 : s2 = replenishmentTrigger (saleCommitState s today d p) today p := by
    injection hok with h
    exact h.symm
  have hsum_le := allocDeds_sum_le hq0
    (saleBatches_nonneg s.batches d.product_id)
  have hsum : (allocDeds d.quantity (saleBatches s.batches d.product_id)).sum = d.quantity := by
    omega
  refine ⟨hsum, ?_⟩
  rw [hs2, replenishmentTrigger_batches]
  have hbatches : (saleCommitState s today d p).batches =
      applySaleDeds s.batches (saleBatches s.batches d.product_id)
        (allocDeds d.quantity (saleBatches s.batches d.product_id)) := rfl
  rw [hbatches]
  have hmain := total_stock_applySaleDeds s.batches p d.quantity hids hpos
  rw [hpid] at hmain
  rw [hmain, hsum]

/-- Fixture for C3: the specification scenario, selling 15 from batches
of 50, 20 and 10 units. -/
def c3P : Product :=
  { id := 3, item_id := "P3", name := "Prod3", category := "Dairy", mrp := 10, min_stock := 10 }

def c3S : StoreState :=
  { products := [c3P]
    batches :=
      [ { id := 1, product_id := 3, batch_number := "BA", quantity := 50, cost_price := 5, expiry_date := 60 }
      , { id := 2, product_id := 3, batch_number := "BB", quantity := 20, cost_price := 5, expiry_date := 10 }
      , { id := 3, product_id := 3, batch_number := "BC", quantity := 10, cost_price := 5, expiry_date := -5 } ]
    transactions := []
    suppliers := []
    purchase_orders := [] }

def c3D : TransactionCreate :=
  { product_id := 3, batch_id := none, transaction_type := "sale", quantity := 15,
    unit_price := 10, notes := none }

/-- Witness for C3 at the concrete scenario. -/
theorem c3_sale_conservation_witness :
    (allocDeds c3D.quantity (saleBatches c3S.batches c3D.product_id)).sum = c3D.quantity ∧
    total_stock c3P (replenishmentTrigger (saleCommitState c3S 0 c3D c3P) 0 c3P).batches =
      total_stock c3P c3S.batches - c3D.quantity :=
  c3_sale_conservation c3S 0 c3D
    (replenishmentTrigger (saleCommitState c3S 0 c3D c3P) 0 c3P) c3P
    rfl rfl (by decide) (by decide) (by decide)
    (create_transaction_sale_ok c3S 0 c3D c3P rfl rfl (by decide))

/-! Helper lemmas about updateFirstBatch and applyWastage. -/

theorem updateFirstBatch_forall (bid : Nat) (f : Batch → Batch) (P : Batch → Prop)
    (L : List Batch) (hL : ∀ b ∈ L, P b) (hf : ∀ b ∈ L, P (f b)) :
    ∀ b ∈ updateFirstBatch bid f L, P b := by
  induction L with
  | nil => intro b hb; cases hb
  | cons a rest ih =>
    intro b hb
    rw [updateFirstBatch] at hb
    by_cases ha : (a.id == bid) = true
    · rw [if_pos ha] at hb
      rcases List.mem_cons.mp hb with rfl | hbr
      · exact hf a (by simp)
      · exact hL b (List.mem_cons_of_mem _ hbr)
    · rw [if_neg ha] at hb
      rcases List.mem_cons.mp hb with rfl | hbr
      · exact hL b (by simp)
      · exact ih (fun x hx => hL x (List.mem_cons_of_mem _ hx))
          (fun x hx => hf x (List.mem_cons_of_mem _ hx)) b hbr

theorem find?_updateFirstBatch (bid : Nat) (f : Batch → Batch)
    (hf : ∀ b, (f b).id = b.id) (L : List Batch) :
    (updateFirstBatch bid f L).find? (fun b => b.id == bid) =
      (L.find? (fun b => b.id == bid)).map f := by
  induction L with
  | nil => rfl
  | cons a rest ih =>
    by_cases ha : (a.id == bid) = true
    · have ha2 : ((f a).id == bid) = true := by rw [hf a]; exact ha
      rw [updateFirstBatch, if_pos ha,
        List.find?_cons_of_pos (p := fun b => b.id == bid) rest ha2,
        List.find?_cons_of_pos (p := fun b => b.id == bid) rest ha]
      rfl
    · rw [updateFirstBatch, if_neg ha,
        List.find?_cons_of_neg (p := fun b => b.id == bid) (updateFirstBatch bid f rest) ha,
        List.find?_cons_of_neg (p := fun b => b.id == bid) rest ha]
      exact ih

theorem updateFirstBatch_not_found (bid : Nat) (f : Batch → Batch) (L : List Batch)
    (h : ∀ b ∈ L, b.id ≠ bid) : updateFirstBatch bid f L = L := by
  induction L with
  | nil => rfl
  | cons a rest ih =>
    rw [updateFirstBatch, if_neg (by simpa using h a (by simp))]
    rw [ih (fun x hx => h x (List.mem_cons_of_mem _ hx))]

theorem applyWastage_nonneg (B : List Batch) (d : TransactionCreate)
    (hB : ∀ b ∈ B, 0 ≤ b.quantity) : ∀ b ∈ applyWastage B d, 0 ≤ b.quantity := by
  rcases hd : d.batch_id with _ | bid
  · simpa [applyWastage, hd] using hB
  · by_cases h0 : bid = 0
    · simpa [applyWastage, hd, h0] using hB
    · simp only [applyWastage, hd, if_neg h0]
      exact updateFirstBatch_forall bid _ _ B hB (by intro b _; dsimp only; omega)

/-- C5: starting from a state where all batch quantities are
nonnegative, after any transaction (sale, wastage or restock) every
batch quantity is still nonnegative; and a wastage against an existing
batch always succeeds, deducting min(batch.quantity, quantity) from
that batch (clamped at zero), even when the requested quantity exceeds
the remaining stock. -/
theorem c5_nonnegative_quantities (s : StoreState) (today : ℤ) (d : TransactionCreate)
    (hids : (s.batches.map Batch.id).Nodup)
    (hpos : ∀ b ∈ s.batches, 0 ≤ b.quantity) :
    (∀ s2, create_transaction s today d = .ok s2 → ∀ b ∈ s2.batches, 0 ≤ b.quantity) ∧
    (∀ p bid b0, d.transaction_type = "wastage" →
      s.products.find? (fun q => q.id == d.product_id) = some p →
      d.batch_id = some bid → bid ≠ 0 →
      s.batches.find? (fun b => b.id == bid) = some b0 →
      ∃ s2 b1, create_transaction s today d = .ok s2 ∧
        s2.batches.find? (fun b => b.id == bid) = some b1 ∧
        b1.quantity = b0.quantity - min b0.quantity d.quantity ∧
        0 ≤ b1.quantity) := by
  constructor
  · intro s2 hok
    rcases hfind : s.products.find? (fun q => q.id == d.product_id) with _ | p
    · unfold create_transaction at hok
      rw [hfind] at hok
      exact absurd hok (by simp)
    · unfold create_transaction at hok
      rw [hfind] at hok
      dsimp only at hok
      by_cases hty : d.transaction_type = "sale"
      · rw [if_pos hty] at hok
        by_cases hc : 0 < d.quantity -
            (allocDeds d.quantity (saleBatches s.batches d.product_id)).sum
        · rw [if_pos hc] at hok
          exact absurd hok (by simp)
        · rw [if_neg hc] at hok
          injection hok with h
          rw [← h, replenishmentTrigger_batches]
          exact applySaleDeds_nonneg s.batches d.product_id d.quantity hids hpos
      · rw [if_neg hty] at hok
        by_cases htw : d.transaction_type = "wastage"
        · rw [if_pos htw] at hok
          injection hok with h
          rw [← h, addTx_batches]
          exact applyWastage_nonneg s.batches d hpos
        · rw [if_neg htw] at hok
          injection hok with h
          rw [← h, addTx_batches]
          exact hpos
  · intro p bid b0 hty hfind hbid hbid0 hfound
    refine ⟨addTx { s with batches := applyWastage s.batches d } today d p,
      { b0 with quantity := max 0 (b0.quantity - d.quantity) },
      create_transaction_wastage_ok s today d p hfind hty, ?_, ?_, ?_⟩
    · rw [addTx_batches]
      have hw : applyWastage s.batches d = updateFirstBatch bid
          (fun b => { b with quantity := max 0 (b.quantity - d.quantity) }) s.batches := by
        simp only [applyWastage, hbid]
        rw [if_neg hbid0]
      rw [show ({ s with batches := applyWastage s.batches d } : StoreState).batches =
        applyWastage s.batches d from rfl]
      rw [hw, find?_updateFirstBatch bid
        (fun b => { b with quantity := max 0 (b.quantity - d.quantity) })
        (fun b => rfl), hfound]
      rfl
    · dsimp only
      omega
    · dsimp only
      omega

/-- Fixture for C5: wastage of 10 units against a batch holding 3. -/
def c5P : Product :=
  { id := 5, item_id := "P5", name := "Prod5", category := "Dairy", mrp := 10, min_stock := 10 }

def c5S : StoreState :=
  { products := [c5P]
    batches :=
      [ { id := 7, product_id := 5, batch_number := "B1", quantity := 3, cost_price := 5, expiry_date := 50 } ]
    transactions := []
    suppliers := []
    purchase_orders := [] }

def c5D : TransactionCreate :=
  { product_id := 5, batch_id := some 7, transaction_type := "wastage", quantity := 10,
    unit_price := 4, notes := none }

/-- Witness for C5 at the concrete scenario. -/
theorem c5_nonnegative_quantities_witness :
    (∀ s2, create_transaction c5S 0 c5D = .ok s2 → ∀ b ∈ s2.batches, 0 ≤ b.quantity) ∧
    (∀ p bid b0, c5D.transaction_type = "wastage" →
      c5S.products.find? (fun q => q.id == c5D.product_id) = some p →
      c5D.batch_id = some bid → bid ≠ 0 →
      c5S.batches.find? (fun b => b.id == bid) = some b0 →
      ∃ s2 b1, create_transaction c5S 0 c5D = .ok s2 ∧
        s2.batches.find? (fun b => b.id == bid) = some b1 ∧
        b1.quantity = b0.quantity - min b0.quantity c5D.quantity ∧
        0 ≤ b1.quantity) :=
  c5_nonnegative_quantities c5S 0 c5D (by decide) (by decide)

/-- C8 (amended): a wastage naming a batch id that matches no existing
batch does not fail with BatchNotFound; it succeeds, records the
transaction, and leaves every batch unchanged.  The only rejection of
the endpoint is Product not found. -/
theorem c8_wastage_amended (s : StoreState) (today : ℤ) (d : TransactionCreate) (p : Product)
    (hty : d.transaction_type = "wastage")
    (hfind : s.products.find? (fun q => q.id == d.product_id) = some p)
    (bid : Nat) (hbid : d.batch_id = some bid)
    (hnone : ∀ b ∈ s.batches, b.id ≠ bid) :
    ∃ s2, create_transaction s today d = .ok s2 ∧ s2.batches = s.batches := by
  refine ⟨addTx { s with batches := applyWastage s.batches d } today d p,
    create_transaction_wastage_ok s today d p hfind hty, ?_⟩
  rw [addTx_batches]
  by_cases h0 : bid = 0
  · simp only [applyWastage, hbid]
    rw [if_pos h0]
  · simp only [applyWastage, hbid]
    rw [if_neg h0, updateFirstBatch_not_found bid _ s.batches hnone]

/-- Fixture for C8: wastage against batch id 42, which names no batch. -/
def c8P : Product :=
  { id := 8, item_id := "P8", name := "Prod8", category := "Dairy", mrp := 10, min_stock := 10 }

def c8S : StoreState :=
  { products := [c8P]
    batches :=
      [ { id := 9, product_id := 8, batch_number := "B1", quantity := 5, cost_price := 1, expiry_date := 50 } ]
    transactions := []
    suppliers := []
    purchase_orders := [] }

def c8D : TransactionCreate :=
  { product_id := 8, batch_id := some 42, transaction_type := "wastage", quantity := 3,
    unit_price := 2, notes := none }

/-- Truth value of a successful endpoint call. -/
def exceptIsOk (e : Except String StoreState) : Bool :=
  match e with
  | .ok _ => true
  | .error _ => false

/-- Counterexample for C8: for batch id 42, which names no existing
batch, the wastage operation is not rejected at all: the call returns
ok (so in particular it does not fail with BatchNotFound) and no batch
is changed. -/
theorem c8_wastage_unknown_batch_cex :
    exceptIsOk (create_transaction c8S 0 c8D) = true ∧
    (runTransaction c8S 0 c8D).batches = c8S.batches := by
  constructor
  · rfl
  · rfl

/-- Witness for the amended C8 at the concrete scenario. -/
theorem c8_wastage_amended_witness :
    ∃ s2, create_transaction c8S 0 c8D = .ok s2 ∧ s2.batches = c8S.batches :=
  c8_wastage_amended c8S 0 c8D c8P rfl rfl 42 rfl (by decide)

/-! Expiry classification. -/

theorem alertStatus_critical_iff (dl : ℤ) :
    alertStatus dl = "critical" ↔ 0 < dl ∧ dl < 7 := by
  unfold alertStatus
  split_ifs with h1 h2 h3
  · exact iff_of_false (by decide) (by omega)
  · exact iff_of_true rfl (by omega)
  · exact iff_of_false (by decide) (by omega)
  · exact iff_of_false (by decide) (by omega)

/-- Counterexample for C4: a batch expiring in exactly 7 days.  The
batch status property (models.py) classifies it as critical, while the
alert endpoints classify 7 days as warning, so classify(7) is not
warning in every component: the rule is not shared. -/
def c4B : Batch :=
  { id := 1, product_id := 1, batch_number := "B", quantity := 5, cost_price := 1, expiry_date := 7 }

theorem c4_classifier_not_shared_cex :
    c4B.days_until_expiry 0 = 7 ∧ c4B.expiry_status 0 = "critical" ∧
    alertStatus 7 = "warning" ∧ ("critical" : String) ≠ "warning" :=
  ⟨rfl, rfl, rfl, by decide⟩

/-- C4 (amended): the alert endpoints, the daily cron check and the
dashboard all classify by the shared rule daysLeft <= 0 expired,
0 < daysLeft < 7 critical, 7 <= daysLeft <= 15 warning, otherwise good,
so classify(7) = warning there, and the pulse discount engine
qualification band coincides with that rule applied to critical stock;
but the batch status property Batch.expiry_status uses
daysLeft <= 7 for critical, so it classifies 7 days as critical: the
classification rule is not one single shared implementation. -/
theorem c4_classifier_amended :
    (∀ dl : ℤ, alertStatus dl = "expired" ↔ dl ≤ 0) ∧
    (∀ dl : ℤ, alertStatus dl = "critical" ↔ 0 < dl ∧ dl < 7) ∧
    (∀ dl : ℤ, alertStatus dl = "warning" ↔ 7 ≤ dl ∧ dl ≤ 15) ∧
    (∀ dl : ℤ, alertStatus dl = "good" ↔ 15 < dl) ∧
    (∀ today : ℤ, ∀ b : Batch, pulseNearExpiry today b = true ↔
      0 < b.quantity ∧ alertStatus (b.expiry_date - today) = "critical") ∧
    (∀ today : ℤ, ∀ b : Batch, b.expiry_status today = "critical" ↔
      0 < b.days_until_expiry today ∧ b.days_until_expiry today ≤ 7) := by
  refine ⟨?_, alertStatus_critical_iff, ?_, ?_, ?_, ?_⟩
  · intro dl
    unfold alertStatus
    split_ifs with h1 h2 h3
    · exact iff_of_true rfl h1
    · exact iff_of_false (by decide) (by omega)
    · exact iff_of_false (by decide) (by omega)
    · exact iff_of_false (by decide) (by omega)
  · intro dl
    unfold alertStatus
    split_ifs with h1 h2 h3
    · exact iff_of_false (by decide) (by omega)
    · exact iff_of_false (by decide) (by omega)
    · exact iff_of_true rfl (by omega)
    · exact iff_of_false (by decide) (by omega)
  · intro dl
    unfold alertStatus
    split_ifs with h1 h2 h3
    · exact iff_of_false (by decide) (by omega)
    · exact iff_of_false (by decide) (by omega)
    · exact iff_of_false (by decide) (by omega)
    · exact iff_of_true rfl (by omega)
  · intro today b
    simp only [pulseNearExpiry, Bool.and_eq_true, decide_eq_true_eq,
      alertStatus_critical_iff]
  · intro today b
    unfold Batch.expiry_status
    split_ifs with h1 h2 h3
    · exact iff_of_false (by decide) (by omega)
    · exact iff_of_true rfl (by omega)
    · exact iff_of_false (by decide) (by omega)
    · exact iff_of_false (by decide) (by omega)

/-! Demand forecaster heuristic fallback. -/

theorem get_heuristic_prediction_pos (category : String) (month : ℤ) :
    0 < get_heuristic_prediction category month := by
  unfold get_heuristic_prediction
  dsimp only
  split_ifs <;> norm_num [round2, bankersRound]

/-- C9: for every category without a trained model and every month in
1..12, predict_demand returns confidence exactly 0.5 and a strictly
positive predicted demand (every heuristic multiplier applied to the
fixed base demand of 50 yields a positive value). -/
theorem c9_heuristic_fallback (models : List (String × ModelInfo)) (category : String)
    (month : ℤ)
    (huntrained : models.find? (fun e => e.fst == category) = none)
    (h1 : 1 ≤ month) (h2 : month ≤ 12) :
    (predict_demand models category month).confidence = 1/2 ∧
    0 < (predict_demand models category month).predicted_demand := by
  unfold predict_demand
  rw [huntrained]
  exact ⟨rfl, get_heuristic_prediction_pos category month⟩

/-- Witness for C9: an untrained category in month 3. -/
theorem c9_heuristic_fallback_witness :
    (predict_demand [] "Unseen Category" 3).confidence = 1/2 ∧
    0 < (predict_demand [] "Unseen Category" 3).predicted_demand :=
  c9_heuristic_fallback [] "Unseen Category" 3 rfl (by decide) (by decide)

/-! Transaction pricing. -/

/-- The transaction row recorded by create_transaction. -/
def txOf (today : ℤ) (d : TransactionCreate) (p : Product) : Transaction :=
  { product_id := d.product_id
    batch_id := d.batch_id
    transaction_type := d.transaction_type
    quantity := d.quantity
    unit_price := if d.unit_price = 0 then p.mrp else d.unit_price
    total_amount := round2 ((d.quantity : ℚ) * (if d.unit_price = 0 then p.mrp else d.unit_price))
    transaction_date := today
    notes := d.notes }

theorem addTx_transactions (s : StoreState) (today : ℤ) (d : TransactionCreate) (p : Product) :
    (addTx s today d p).transactions = s.transactions ++ [txOf today d p] := rfl

/-- C10: every transaction recorded through the endpoint stores unit
price data.unit_price when it is nonzero and the product mrp when the
caller omitted it or passed 0, with total_amount = round(quantity x
price, 2); consequently when the product mrp is nonzero, no transaction
is recorded at unit price 0. -/
theorem c10_unit_price_default (s : StoreState) (today : ℤ) (d : TransactionCreate)
    (s2 : StoreState) (p : Product)
    (hfind : s.products.find? (fun q => q.id == d.product_id) = some p)
    (hok : create_transaction s today d = .ok s2) :
    s2.transactions = s.transactions ++ [txOf today d p] ∧
    (txOf today d p).unit_price = (if d.unit_price = 0 then p.mrp else d.unit_price) ∧
    (txOf today d p).total_amount =
      round2 ((d.quantity : ℚ) * (txOf today d p).unit_price) ∧
    (d.unit_price = 0 → (txOf today d p).unit_price = p.mrp) ∧
    (p.mrp ≠ 0 → (txOf today d p).unit_price ≠ 0) := by
  have hprops : (txOf today d p).unit_price = (if d.unit_price = 0 then p.mrp else d.unit_price) ∧
      (txOf today d p).total_amount = round2 ((d.quantity : ℚ) * (txOf today d p).unit_price) ∧
      (d.unit_price = 0 → (txOf today d p).unit_price = p.mrp) ∧
      (p.mrp ≠ 0 → (txOf today d p).unit_price ≠ 0) := by
    refine ⟨rfl, rfl, fun h0 => by simp [txOf, h0], fun hm => ?_⟩
    by_cases h0 : d.unit_price = 0
    · simpa [txOf, h0] using hm
    · simpa [txOf, h0] using h0
  refine ⟨?_, hprops.1, hprops.2.1, hprops.2.2.1, hprops.2.2.2⟩
  unfold create_transaction at hok
  rw [hfind] at hok
  dsimp only at hok
  by_cases hty : d.transaction_type = "sale"
  · rw [if_pos hty] at hok
    by_cases hc : 0 < d.quantity -
        (allocDeds d.quantity (saleBatches s.batches d.product_id)).sum
    · rw [if_pos hc] at hok
      exact absurd hok (by simp)
    · rw [if_neg hc] at hok
      injection hok with h
      rw [← h, replenishmentTrigger_transactions]
      rfl
  · rw [if_neg hty] at hok
    by_cases htw : d.transaction_type = "wastage"
    · rw [if_pos htw] at hok
      injection hok with h
      rw [← h]
      rfl
    · rw [if_neg htw] at hok
      injection hok with h
      rw [← h]
      rfl

/-- Fixture for C10: a restock recorded with unit_price omitted
(defaulted to 0) for a product with mrp 7. -/
def c10P : Product :=
  { id := 10, item_id := "PX", name := "ProdX", category := "Dairy", mrp := 7, min_stock := 10 }

def c10S : StoreState :=
  { products := [c10P]
    batches := []
    transactions := []
    suppliers := []
    purchase_orders := [] }

def c10D : TransactionCreate :=
  { product_id := 10, batch_id := none, transaction_type := "restock", quantity := 2,
    unit_price := 0, notes := none }

/-- Witness for C10 at the concrete scenario. -/
theorem c10_unit_price_default_witness :
    (addTx c10S 0 c10D c10P).transactions = c10S.transactions ++ [txOf 0 c10D c10P] ∧
    (txOf 0 c10D c10P).unit_price = (if c10D.unit_price = 0 then c10P.mrp else c10D.unit_price) ∧
    (txOf 0 c10D c10P).total_amount =
      round2 ((c10D.quantity : ℚ) * (txOf 0 c10D c10P).unit_price) ∧
    (c10D.unit_price = 0 → (txOf 0 c10D c10P).unit_price = c10P.mrp) ∧
    (c10P.mrp ≠ 0 → (txOf 0 c10D c10P).unit_price ≠ 0) :=
  c10_unit_price_default c10S 0 c10D (addTx c10S 0 c10D c10P) c10P rfl
    (create_transaction_other_ok c10S 0 c10D c10P rfl (by decide) (by decide))

/-- C7: a sale on a product that already has a purchase order with
status draft or sent never creates a second purchase order: the list of
purchase orders is unchanged. -/
theorem c7_po_dedup (s : StoreState) (today : ℤ) (d : TransactionCreate) (s2 : StoreState)
    (po : PurchaseOrder) (hty : d.transaction_type = "sale")
    (hmem : po ∈ s.purchase_orders) (hpid : po.product_id = d.product_id)
    (hst : po.status = "draft" ∨ po.status = "sent")
    (hok : create_transaction s today d = .ok s2) :
    s2.purchase_orders = s.purchase_orders := by
  rcases hfind : s.products.find? (fun q => q.id == d.product_id) with _ | p
  · unfold create_transaction at hok
    rw [hfind] at hok
    exact absurd hok (by simp)
  have hpid2 : p.id = d.product_id := by simpa using List.find?_some hfind
  unfold create_transaction at hok
  rw [hfind] at hok
  dsimp only at hok
  rw [if_pos hty] at hok
  by_cases hc : 0 < d.quantity -
      (allocDeds d.quantity (saleBatches s.batches d.product_id)).sum
  · rw [if_pos hc] at hok
    exact absurd hok (by simp)
  rw [if_neg hc] at hok
  injection hok with h
  rw [← h]
  have hcommit_po : (saleCommitState s today d p).purchase_orders = s.purchase_orders := rfl
  have hpo_pred : (po.product_id == p.id && (po.status == "draft" || po.status == "sent")) = true := by
    rcases hst with h1 | h1 <;> simp [hpid, hpid2, h1]
  have hnot : ¬ (((saleCommitState s today d p).purchase_orders.find? (fun po2 =>
      po2.product_id == p.id && (po2.status == "draft" || po2.status == "sent"))).isNone = true) := by
    rw [hcommit_po]
    intro hn
    have h2 := List.find?_eq_none.mp (Option.isNone_iff_eq_none.mp hn) po hmem
    rw [hpo_pred] at h2
    exact h2 rfl
  unfold replenishmentTrigger
  dsimp only
  by_cases h1 : (1 : ℚ)/10 <
      (recentSales (saleCommitState s today d p).transactions p.id today : ℚ) / 30
  · rw [if_pos h1]
    by_cases h2 : ((total_stock p (saleCommitState s today d p).batches : ℚ) /
        ((recentSales (saleCommitState s today d p).transactions p.id today : ℚ) / 30)) ≤ 2
    · rw [if_pos h2, if_neg hnot]
      exact hcommit_po
    · rw [if_neg h2]
      exact hcommit_po
  · rw [if_neg h1]
    exact hcommit_po

/-- Fixture for C7: a product with stock and an existing draft purchase
order; a sale of one unit succeeds and must not create a second
order. -/
def c7P : Product :=
  { id := 7, item_id := "P7", name := "Prod7", category := "Dairy", mrp := 10, min_stock := 10 }

def c7PO : PurchaseOrder :=
  { supplier_id := 1, product_id := 7, quantity := 20, status := "draft",
    predicted_stockout_date := 100 }

def c7S : StoreState :=
  { products := [c7P]
    batches :=
      [ { id := 11, product_id := 7, batch_number := "B1", quantity := 10, cost_price := 5, expiry_date := 50 } ]
    transactions := []
    suppliers := [ { id := 1, name := "Sup", category := "Dairy" } ]
    purchase_orders := [c7PO] }

def c7D : TransactionCreate :=
  { product_id := 7, batch_id := none, transaction_type := "sale", quantity := 1,
    unit_price := 10, notes := none }

/-- Witness for C7 at the concrete scenario. -/
theorem c7_po_dedup_witness :
    (replenishmentTrigger (saleCommitState c7S 0 c7D c7P) 0 c7P).purchase_orders =
      c7S.purchase_orders :=
  c7_po_dedup c7S 0 c7D _ c7PO rfl (by decide) rfl (Or.inl rfl)
    (create_transaction_sale_ok c7S 0 c7D c7P rfl rfl (by decide))

/-! Replenishment trigger. -/

theorem pyInt_eq_floor {q : ℚ} (h : 0 ≤ q) : pyInt q = ⌊q⌋ := by
  rw [pyInt, if_neg (not_lt.mpr h)]

/-- Shape of the state produced by the trigger when all four firing
conditions hold: velocity above threshold, projected stock-out within
two days, no active purchase order, supplier found. -/
theorem replenishmentTrigger_creates (s1 : StoreState) (today : ℤ) (p : Product)
    (sup : Supplier)
    (hv : (1 : ℚ)/10 < (recentSales s1.transactions p.id today : ℚ) / 30)
    (hd2 : (total_stock p s1.batches : ℚ) /
      ((recentSales s1.transactions p.id today : ℚ) / 30) ≤ 2)
    (hnopo : (s1.purchase_orders.find? (fun po => po.product_id == p.id &&
      (po.status == "draft" || po.status == "sent"))).isNone = true)
    (hsup : s1.suppliers.find? (fun su => su.category == p.category) = some sup) :
    replenishmentTrigger s1 today p = { s1 with purchase_orders := (s1.purchase_orders ++
      [{ supplier_id := sup.id
         product_id := p.id
         quantity := max 20 (pyInt (((recentSales s1.transactions p.id today : ℚ) / 30) * 7))
         status := "draft"
         predicted_stockout_date := today + pyInt ((total_stock p s1.batches : ℚ) /
           ((recentSales s1.transactions p.id today : ℚ) / 30)) }]) } := by
  unfold replenishmentTrigger
  dsimp only
  rw [if_pos hv, if_pos hd2, if_pos hnopo, hsup]

/-- C6 (amended): when the post-sale trigger fires (velocity > 0.1,
daysUntilStockout <= 2, no active order, supplier found, nonnegative
stock), the created purchase order has status draft, quantity
max(20, floor(velocity x 7)) where velocity is the trailing 30-day sale
quantity divided by 30 (the source uses Python int(), i.e. truncation,
not rounding), and predictedStockoutDate = today + floor(daysUntilStockout). -/
theorem c6_replenishment_amended (s : StoreState) (today : ℤ) (d : TransactionCreate)
    (s2 : StoreState) (p : Product) (sup : Supplier)
    (hty : d.transaction_type = "sale")
    (hfind : s.products.find? (fun q => q.id == d.product_id) = some p)
    (hok : create_transaction s today d = .ok s2)
    (hv : (1 : ℚ)/10 <
      (recentSales (saleCommitState s today d p).transactions p.id today : ℚ) / 30)
    (hstock : 0 ≤ total_stock p (saleCommitState s today d p).batches)
    (hd2 : (total_stock p (saleCommitState s today d p).batches : ℚ) /
      ((recentSales (saleCommitState s today d p).transactions p.id today : ℚ) / 30) ≤ 2)
    (hnopo : (s.purchase_orders.find? (fun po => po.product_id == p.id &&
      (po.status == "draft" || po.status == "sent"))).isNone = true)
    (hsup : s.suppliers.find? (fun su => su.category == p.category) = some sup) :
    s2.purchase_orders = s.purchase_orders ++
      [{ supplier_id := sup.id
         product_id := p.id
         quantity := max 20
           ⌊((recentSales (saleCommitState s today d p).transactions p.id today : ℚ) / 30) * 7⌋
         status := "draft"
         predicted_stockout_date := today +
           ⌊(total_stock p (saleCommitState s today d p).batches : ℚ) /
             ((recentSales (saleCommitState s today d p).transactions p.id today : ℚ) / 30)⌋ }] := by
  unfold create_transaction at hok
  rw [hfind] at hok
  dsimp only at hok
  rw [if_pos hty] at hok
  by_cases hc : 0 < d.quantity -
      (allocDeds d.quantity (saleBatches s.batches d.product_id)).sum
  · rw [if_pos hc] at hok
    exact absurd hok (by simp)
  rw [if_neg hc] at hok
  injection hok with h
  have havg : (0 : ℚ) < (recentSales (saleCommitState s today d p).transactions p.id today : ℚ) / 30 :=
    lt_trans (by norm_num) hv
  have hfl1 : pyInt (((recentSales (saleCommitState s today d p).transactions p.id today : ℚ) / 30) * 7) =
      ⌊((recentSales (saleCommitState s today d p).transactions p.id today : ℚ) / 30) * 7⌋ :=
    pyInt_eq_floor (by positivity)
  have hfl2 : pyInt ((total_stock p (saleCommitState s today d p).batches : ℚ) /
      ((recentSales (saleCommitState s today d p).transactions p.id today : ℚ) / 30)) =
      ⌊(total_stock p (saleCommitState s today d p).batches : ℚ) /
        ((recentSales (saleCommitState s today d p).transactions p.id today : ℚ) / 30)⌋ := by
    apply pyInt_eq_floor
    apply div_nonneg _ (le_of_lt havg)
    exact_mod_cast hstock
  rw [← h, replenishmentTrigger_creates (saleCommitState s today d p) today p sup hv hd2 hnopo hsup]
  rw [hfl1, hfl2]
  rfl

/-- Fixture for C6: 94 units sold over the trailing 30 days (90 five
days ago plus a new sale of 4), stock of 6 after the sale, giving
velocity 94/30, daysUntilStockout 90/47 and an order quantity of
int(94/30 x 7) = int(21.93...) = 21. -/
def c6P : Product :=
  { id := 6, item_id := "P6", name := "Prod6", category := "Dairy", mrp := 10, min_stock := 10 }

def c6Sup : Supplier := { id := 2, name := "Sup6", category := "Dairy" }

def c6S : StoreState :=
  { products := [c6P]
    batches :=
      [ { id := 20, product_id := 6, batch_number := "B1", quantity := 10, cost_price := 5, expiry_date := 2000 } ]
    transactions :=
      [ { product_id := 6, batch_id := none, transaction_type := "sale", quantity := 90,
          unit_price := 10, total_amount := 900, transaction_date := 995, notes := none } ]
    suppliers := [c6Sup]
    purchase_orders := [] }

def c6D : TransactionCreate :=
  { product_id := 6, batch_id := none, transaction_type := "sale", quantity := 4,
    unit_price := 10, notes := none }

theorem c6_recent :
    recentSales (saleCommitState c6S 1000 c6D c6P).transactions c6P.id 1000 = 94 := rfl

theorem c6_stock :
    total_stock c6P (saleCommitState c6S 1000 c6D c6P).batches = 6 := rfl

theorem c6_pyInt_qty : pyInt ((94 : ℚ)/30 * 7) = 21 := by
  have e : ((94 : ℚ)/30 * 7) = ((329 : ℤ) : ℚ)/((15 : ℕ) : ℚ) := by norm_num
  rw [pyInt, e, if_neg (by norm_num), Rat.floor_intCast_div_natCast]
  decide

theorem c6_pyInt_date : pyInt ((6 : ℚ) / ((94 : ℚ)/30)) = 1 := by
  have e : ((6 : ℚ) / ((94 : ℚ)/30)) = ((90 : ℤ) : ℚ)/((47 : ℕ) : ℚ) := by norm_num
  rw [pyInt, e, if_neg (by norm_num), Rat.floor_intCast_div_natCast]
  decide

/-- Counterexample for C6: at this concrete sale the code creates the
purchase order with quantity 21 = max(20, int(velocity x 7)) since
int() truncates, while the claimed formula max(20, round(velocity x 7))
gives 22 (velocity x 7 = 21.93...). -/
theorem c6_order_quantity_cex :
    (runTransaction c6S 1000 c6D).purchase_orders.map PurchaseOrder.quantity = [21] ∧
    max 20 (bankersRound ((94 : ℚ)/30 * 7)) = 22 := by
  constructor
  · have hok := create_transaction_sale_ok c6S 1000 c6D c6P rfl rfl (by decide)
    have hrun : runTransaction c6S 1000 c6D =
        replenishmentTrigger (saleCommitState c6S 1000 c6D c6P) 1000 c6P := by
      unfold runTransaction
      rw [hok]
    have hcreate := replenishmentTrigger_creates (saleCommitState c6S 1000 c6D c6P) 1000 c6P c6Sup
      (by rw [c6_recent]; norm_num)
      (by rw [c6_recent, c6_stock]; norm_num)
      rfl rfl
    rw [c6_recent, c6_stock] at hcreate
    rw [hrun, hcreate]
    have hpo : (saleCommitState c6S 1000 c6D c6P).purchase_orders = [] := rfl
    dsimp only
    rw [hpo]
    simp only [List.nil_append, List.map_cons, List.map_nil]
    have hq : (20 : ℤ) ⊔ pyInt (((94 : ℤ) : ℚ)/30 * 7) = 21 := by
      rw [show (((94 : ℤ) : ℚ)/30 * 7) = (94 : ℚ)/30 * 7 from by norm_num, c6_pyInt_qty]
      decide
    rw [hq]
  · have e : ((94 : ℚ)/30 * 7) = ((329 : ℤ) : ℚ)/((15 : ℕ) : ℚ) := by norm_num
    rw [bankersRound, e, Rat.floor_intCast_div_natCast]
    norm_num

/-- Witness for the amended C6 at the concrete scenario. -/
theorem c6_replenishment_amended_witness :
    (replenishmentTrigger (saleCommitState c6S 1000 c6D c6P) 1000 c6P).purchase_orders =
      c6S.purchase_orders ++
      [{ supplier_id := c6Sup.id
         product_id := c6P.id
         quantity := max 20
           ⌊((recentSales (saleCommitState c6S 1000 c6D c6P).transactions c6P.id 1000 : ℚ) / 30) * 7⌋
         status := "draft"
         predicted_stockout_date := 1000 +
           ⌊(total_stock c6P (saleCommitState c6S 1000 c6D c6P).batches : ℚ) /
             ((recentSales (saleCommitState c6S 1000 c6D c6P).transactions c6P.id 1000 : ℚ) / 30)⌋ }] :=
  c6_replenishment_amended c6S 1000 c6D
    (replenishmentTrigger (saleCommitState c6S 1000 c6D c6P) 1000 c6P) c6P c6Sup
    rfl rfl
    (create_transaction_sale_ok c6S 1000 c6D c6P rfl rfl (by decide))
    (by rw [c6_recent]; norm_num)
    (by rw [c6_stock]; norm_num)
    (by rw [c6_recent, c6_stock]; norm_num)
    rfl rfl

end CampusStore
